import Mathlib

/-!
Shallow embedding of the `pooja_editor` terminal text editor
(`pooja_core_editor.py` and `plugins/plugin_save.py`) and proofs of
spec-level properties about it.

The editor state is a Python dict; here it is a structure.  Plugin
actions are arbitrary callables stored in the `key_actions` dict; we
model them by a type parameter `A` of action tokens together with an
interpretation `interp : A → EditorState A → EditorState A` passed to
the dispatcher, exactly where Python calls `action_function(editor_state)`.

All numeric fields are `Nat`.  Every subtraction in the source is either
guarded (`if row > 0: row -= 1`) or wrapped in `max(0, ...)`, so Python
integer arithmetic and truncated `Nat` subtraction agree on all states
of this model.
-/

/-- Key codes from the `curses` module (standard ncurses values). -/
def curses_KEY_UP : Int := 259
def curses_KEY_DOWN : Int := 258
def curses_KEY_LEFT : Int := 260
def curses_KEY_RIGHT : Int := 261
def curses_KEY_HOME : Int := 262
def curses_KEY_END : Int := 360
def curses_KEY_PPAGE : Int := 339
def curses_KEY_NPAGE : Int := 338
def curses_KEY_BACKSPACE : Int := 263
def curses_KEY_DC : Int := 330
def curses_KEY_ENTER : Int := 343
def curses_KEY_RESIZE : Int := 410

/-- The editor state dictionary built by `setup_editor_state`
(`pooja_core_editor.py` lines 18-31).  The `screen` handle is a
terminal collaborator and carries no editor data, so it is omitted.
`key_actions` maps a key code to a plugin action token of type `A`. -/
structure EditorState (A : Type) where
  filename : Option String
  lines : List (List Char)
  cursor_row : Nat
  cursor_col : Nat
  top_screen_line : Nat
  left_screen_col : Nat
  screen_height : Nat
  screen_width : Nat
  key_actions : Int → Option A
  status_message : String
  is_dirty : Bool
deriving Inhabited

/-- Python list indexing `lines[i]` (all uses in the source are in range
for reachable states; out of range yields the empty line here). -/
def getLine (lines : List (List Char)) (i : Nat) : List Char :=
  lines.getD i []

/-- Python `list.insert(n, x)`: inserts before index `n`, clamping to the
end of the list when `n` exceeds the length. -/
def pyInsert (lines : List (List Char)) (n : Nat) (x : List Char) : List (List Char) :=
  lines.take n ++ [x] ++ lines.drop n

/-- `show_message_in_status` (lines 164-166). -/
def show_message_in_status (s : EditorState A) (message : String) : EditorState A :=
  { s with status_message := message }

/-- `mark_file_as_changed` (lines 168-171). -/
def mark_file_as_changed (s : EditorState A) : EditorState A :=
  if s.is_dirty then s else { s with is_dirty := true }

/-- `mark_file_as_saved` (lines 173-175). -/
def mark_file_as_saved (s : EditorState A) : EditorState A :=
  { s with is_dirty := false }

/-- `tell_core_about_key` (lines 151-160): stores the key binding,
overwriting any previous one (the callable check never fires for real
actions). -/
def tell_core_about_key (s : EditorState A) (key_code : Int) (action_function : A) :
    EditorState A :=
  { s with key_actions := fun k => if k = key_code then some action_function else s.key_actions k }

/-- `move_cursor_and_scroll` (lines 284-316): scroll reconciliation.
Returns unchanged when the screen is too small; otherwise pulls
`top_screen_line` / `left_screen_col` so the cursor is inside the
window, then clamps both to `≥ 0`. -/
def move_cursor_and_scroll (s : EditorState A) : EditorState A :=
  if s.screen_height ≤ 1 ∨ s.screen_width ≤ 0 then s
  else
    let display_height := s.screen_height - 1
    let screen_width := s.screen_width
    let top1 :=
      if s.cursor_row < s.top_screen_line then s.cursor_row
      else if s.cursor_row ≥ s.top_screen_line + display_height then
        s.cursor_row - display_height + 1
      else s.top_screen_line
    let left1 :=
      if s.cursor_col < s.left_screen_col then s.cursor_col
      else if s.cursor_col ≥ s.left_screen_col + screen_width then
        s.cursor_col - screen_width + 1
      else s.left_screen_col
    { s with top_screen_line := max 0 top1, left_screen_col := max 0 left1 }

/-- `ask_user_for_input` (lines 324-382): returns `none` when the screen
is too small to show the prompt, otherwise the line the user typed
(`none` when the user cancelled).  Its net effect on the editor state is
nil: it saves `status_message` and restores it in the `finally` block,
so only the returned string is modeled. -/
def ask_user_for_input (s : EditorState A) (_prompt_message : String)
    (typed : Option String) : Option String :=
  if s.screen_height ≤ 1 ∨ s.screen_width ≤ 1 then none else typed

/-- Python `str.lower()` (adequate for the ASCII answers compared
against `'y'`): lowercases each character. -/
def pyLower (c : String) : String := ⟨c.data.map Char.toLower⟩

/-- Python `str.strip()`: drops leading and trailing whitespace. -/
def pyStrip (c : String) : String :=
  ⟨((c.data.dropWhile Char.isWhitespace).reverse.dropWhile Char.isWhitespace).reverse⟩

/-- Python truthiness of `confirm and confirm.lower() == 'y'`
(line 516): a non-empty answer whose lowercase form is `"y"`. -/
def isAffirmative : Option String → Bool
  | some c => (!(c == "")) && (pyLower c == "y")
  | none => false

/-- `handle_key_press` (lines 386-548).  `interp` applies a stored plugin
action token to the state (Python `action_function(editor_state)`);
`answer` is the line the user would type into the quit-confirmation
prompt (consumed only through `ask_user_for_input`, which may still
yield `none` on a too-small screen).  Returns Python's
`(return value, final state)`: `false` means quit.  Branches where
`action_was_taken` stays `False` skip `move_cursor_and_scroll` and
leave the state untouched, exactly as in the source. -/
def handle_key_press (interp : A → EditorState A → EditorState A)
    (s : EditorState A) (key_pressed : Int) (answer : Option String) :
    Bool × EditorState A :=
  let lines := s.lines
  let row := s.cursor_row
  let col := s.cursor_col
  -- 1. Check if a plugin handles this key (lines 400-404)
  match s.key_actions key_pressed with
  | some action_function =>
      (true, move_cursor_and_scroll (interp action_function s))
  | none =>
    -- 2. Built-in editor keys
    if key_pressed = curses_KEY_UP then
      if row > 0 then
        let s1 := { s with cursor_row := row - 1 }
        let new_col := min col (getLine s1.lines s1.cursor_row).length
        (true, move_cursor_and_scroll { s1 with cursor_col := new_col })
      else (true, s)
    else if key_pressed = curses_KEY_DOWN then
      if row < lines.length - 1 then
        let s1 := { s with cursor_row := row + 1 }
        let new_col := min col (getLine s1.lines s1.cursor_row).length
        (true, move_cursor_and_scroll { s1 with cursor_col := new_col })
      else (true, s)
    else if key_pressed = curses_KEY_LEFT then
      if col > 0 then
        (true, move_cursor_and_scroll { s with cursor_col := col - 1 })
      else if row > 0 then
        let s1 := { s with cursor_row := row - 1 }
        (true, move_cursor_and_scroll
          { s1 with cursor_col := (getLine s1.lines s1.cursor_row).length })
      else (true, s)
    else if key_pressed = curses_KEY_RIGHT then
      let current_line_len := (getLine lines row).length
      if col < current_line_len then
        (true, move_cursor_and_scroll { s with cursor_col := col + 1 })
      else if row < lines.length - 1 then
        (true, move_cursor_and_scroll { s with cursor_row := row + 1, cursor_col := 0 })
      else (true, s)
    else if key_pressed = curses_KEY_HOME then
      (true, move_cursor_and_scroll { s with cursor_col := 0 })
    else if key_pressed = curses_KEY_END then
      (true, move_cursor_and_scroll { s with cursor_col := (getLine lines row).length })
    else if key_pressed = curses_KEY_PPAGE then
      if s.screen_height > 1 then
        let display_height := s.screen_height - 1
        let s1 := { s with cursor_row := row - display_height,
                           top_screen_line := s.top_screen_line - display_height }
        let new_col := min col (getLine s1.lines s1.cursor_row).length
        (true, move_cursor_and_scroll { s1 with cursor_col := new_col })
      else (true, s)
    else if key_pressed = curses_KEY_NPAGE then
      if s.screen_height > 1 then
        let display_height := s.screen_height - 1
        let max_row := lines.length - 1
        let s1 := { s with
          cursor_row := min max_row (row + display_height),
          top_screen_line :=
            min (lines.length - display_height) (s.top_screen_line + display_height) }
        let new_col := min col (getLine s1.lines s1.cursor_row).length
        (true, move_cursor_and_scroll { s1 with cursor_col := new_col })
      else (true, s)
    else if key_pressed = curses_KEY_BACKSPACE ∨ key_pressed = 127 ∨ key_pressed = 8 then
      if col > 0 then
        let current_line := getLine lines row
        let s1 := { s with
          lines := lines.set row (current_line.take (col - 1) ++ current_line.drop col),
          cursor_col := col - 1 }
        (true, move_cursor_and_scroll (mark_file_as_changed s1))
      else if row > 0 then
        let line_to_move := getLine lines row
        let lines1 := lines.eraseIdx row
        let new_row := row - 1
        let new_col := (getLine lines1 new_row).length
        let s1 := { s with
          lines := lines1.set new_row (getLine lines1 new_row ++ line_to_move),
          cursor_row := new_row,
          cursor_col := new_col }
        (true, move_cursor_and_scroll (mark_file_as_changed s1))
      else (true, s)
    else if key_pressed = curses_KEY_DC then
      let current_line := getLine lines row
      if col < current_line.length then
        let s1 := { s with
          lines := lines.set row (current_line.take col ++ current_line.drop (col + 1)) }
        (true, move_cursor_and_scroll (mark_file_as_changed s1))
      else if row < lines.length - 1 then
        let line_to_join := getLine lines (row + 1)
        let lines1 := lines.eraseIdx (row + 1)
        let s1 := { s with lines := lines1.set row (getLine lines1 row ++ line_to_join) }
        (true, move_cursor_and_scroll (mark_file_as_changed s1))
      else (true, s)
    else if key_pressed = curses_KEY_ENTER ∨ key_pressed = 10 ∨ key_pressed = 13 then
      let current_line := getLine lines row
      let lines1 := lines.set row (current_line.take col)
      let lines2 := pyInsert lines1 (row + 1) (current_line.drop col)
      let s1 := { s with lines := lines2, cursor_row := row + 1, cursor_col := 0 }
      (true, move_cursor_and_scroll (mark_file_as_changed s1))
    else if key_pressed = 17 then
      if s.is_dirty then
        let confirm := ask_user_for_input s "Unsaved changes! Quit anyway? (y/N): " answer
        if isAffirmative confirm then (false, s)
        else (true, move_cursor_and_scroll (show_message_in_status s "Quit cancelled."))
      else (false, s)
    else if 32 ≤ key_pressed ∧ key_pressed ≤ 126 then
      let char_to_insert := Char.ofNat key_pressed.toNat
      let current_line := getLine lines row
      let s1 := { s with
        lines := lines.set row (current_line.take col ++ [char_to_insert] ++ current_line.drop col),
        cursor_col := col + 1 }
      (true, move_cursor_and_scroll (mark_file_as_changed s1))
    else if key_pressed = curses_KEY_RESIZE then
      (true, move_cursor_and_scroll s)
    else
      (true, s)

/-! ## File contents

A file's decoded text is a `List Char`.  Loading goes through Python's
text-mode universal-newline translation, then line iteration (chunks
ending at each `'\n'`), then `rstrip('\n\r')` per line; saving writes
each buffer line followed by a single `'\n'`. -/

/-- Python text-mode (`open(..., 'r')`) universal-newline translation:
`"\r\n"` and lone `"\r"` both become `"\n"`. -/
def translateNewlines : List Char → List Char
  | [] => []
  | [c] => if c = '\r' then ['\n'] else [c]
  | c1 :: c2 :: rest =>
    if c1 = '\r' then
      if c2 = '\n' then '\n' :: translateNewlines rest
      else '\n' :: translateNewlines (c2 :: rest)
    else c1 :: translateNewlines (c2 :: rest)

/-- Helper for `splitLinesKeepEnds`: `acc` holds the current chunk in
reverse. -/
def splitLinesAux (acc : List Char) : List Char → List (List Char)
  | [] => if acc.isEmpty then [] else [acc.reverse]
  | c :: rest =>
    if c = '\n' then (acc.reverse ++ ['\n']) :: splitLinesAux [] rest
    else splitLinesAux (c :: acc) rest

/-- Python `for line in f`: splits the text into chunks, each ending at a
`'\n'` (kept), with a final unterminated chunk when the text does not
end in `'\n'`; the empty text yields no lines. -/
def splitLinesKeepEnds (content : List Char) : List (List Char) :=
  splitLinesAux [] content

/-- The character set of `rstrip('\n\r')`. -/
def isNewlineChar (c : Char) : Bool := c = '\n' || c = '\r'

/-- Python `line.rstrip('\n\r')`: drops every trailing `'\n'` or `'\r'`. -/
def rstripNewline (l : List Char) : List Char :=
  (l.reverse.dropWhile isNewlineChar).reverse

/-- The list of lines `load_file_into_editor` reads from file text
(`pooja_core_editor.py` lines 53-54):
`[line.rstrip('\n\r') for line in f]`. -/
def load_lines (content : List Char) : List (List Char) :=
  (splitLinesKeepEnds (translateNewlines content)).map rstripNewline

/-- The file text `do_save_file` writes (`plugins/plugin_save.py` lines
72-76): each buffer line followed by one `'\n'`. -/
def save_content (lines : List (List Char)) : List Char :=
  (lines.map (fun line => line ++ ['\n'])).flatten

/-- Outcome of the file-system collaborator inside
`load_file_into_editor`: the file exists and its decoded text is read,
or the path is a directory, or the path does not exist, or reading
raises with a message. -/
inductive LoadOutcome where
  | contents (text : List Char)
  | isDirectory
  | notExists
  | loadError (msg : String)

/-- `load_file_into_editor` (lines 44-90). -/
def load_file_into_editor (s : EditorState A) (filename : String)
    (outcome : LoadOutcome) : EditorState A :=
  match outcome with
  | .contents text =>
      let ls := load_lines text
      let ls := if ls.isEmpty then [[]] else ls
      { s with lines := ls, filename := some filename, is_dirty := false,
               cursor_row := 0, cursor_col := 0,
               top_screen_line := 0, left_screen_col := 0,
               status_message := "Opened: " ++ filename }
  | .isDirectory =>
      { s with status_message := "Error: '" ++ filename ++ "' is a folder.",
               filename := none, lines := [[]], is_dirty := false,
               cursor_row := 0, cursor_col := 0,
               top_screen_line := 0, left_screen_col := 0 }
  | .notExists =>
      { s with filename := some filename, lines := [[]], is_dirty := false,
               cursor_row := 0, cursor_col := 0,
               top_screen_line := 0, left_screen_col := 0,
               status_message := "New File: " ++ filename ++ " | Ctrl+Q: Quit" }
  | .loadError msg =>
      { s with lines := [[]],
               status_message := "Error loading " ++ filename ++ ": " ++ msg,
               filename := none, is_dirty := false,
               cursor_row := 0, cursor_col := 0,
               top_screen_line := 0, left_screen_col := 0 }

/-- Python truthiness of an optional string: `None` and `""` are falsy. -/
def truthyString : Option String → Bool
  | some f => !(f == "")
  | none => false

/-- `setup_editor_state` (lines 13-40): the fresh state, optionally
followed by `load_file_into_editor` and the status-bar update. -/
def setup_editor_state (arg : Option (String × LoadOutcome)) : EditorState A :=
  let editor_state : EditorState A :=
    { filename := none, lines := [[]], cursor_row := 0, cursor_col := 0,
      top_screen_line := 0, left_screen_col := 0,
      screen_height := 0, screen_width := 0,
      key_actions := fun _ => none,
      status_message := "SimpleEdit | Ctrl+Q: Quit", is_dirty := false }
  match arg with
  | none => editor_state
  | some (filename, outcome) =>
      let s1 := load_file_into_editor editor_state filename outcome
      if truthyString s1.filename then
        { s1 with status_message := "File: " ++ filename ++ " | Ctrl+Q: Quit" }
      else s1

/-! ## The save plugin (`plugins/plugin_save.py`)

External effects of `do_save_file` are parameters: `typed` is the user's
Save-As answer, `is_dir` is the file system's `os.path.isdir`, and
`write_result` says whether `open`/`write` succeeded or which exception
it raised.  The core tools handed over in `find_and_load_plugins`
(lines 124-134) are the functions defined above, so the plugin's
missing-tool check (lines 28-32) never fires and is omitted. -/

/-- Result of the `open`/`write` block in `do_save_file`. -/
inductive SaveOutcome where
  | success
  | ioError (msg : String)
  | unexpectedError (msg : String)

/-- The `try`/`except` write block of `do_save_file` (lines 64-89),
reached once a filename is in hand. -/
def write_and_report (s : EditorState A) (current_filename : String)
    (write_result : SaveOutcome) : EditorState A :=
  match write_result with
  | .success =>
      let lines_to_save := s.lines
      let s := show_message_in_status s
        ("Saved " ++ toString lines_to_save.length ++ " lines to " ++ current_filename)
      mark_file_as_saved s
  | .ioError e =>
      show_message_in_status s ("Error saving! Could not write to file: " ++ e)
  | .unexpectedError e =>
      show_message_in_status s ("Error saving! An unexpected error occurred: " ++ e)

/-- `do_save_file` (lines 13-89): when the buffer has no (truthy)
filename, ask for one, bail out on cancel/blank/directory (recording the
entered name via `set_filename` before writing); then attempt the write. -/
def do_save_file (s : EditorState A) (typed : Option String)
    (is_dir : String → Bool) (write_result : SaveOutcome) : EditorState A :=
  if truthyString s.filename then
    write_and_report s (s.filename.getD "") write_result
  else
    match ask_user_for_input s "Save As: " typed with
    | none => show_message_in_status s "Save cancelled."
    | some filename_from_user =>
      if pyStrip filename_from_user = "" then
        show_message_in_status s "Save cancelled."
      else
        let current_filename := pyStrip filename_from_user
        if is_dir current_filename then
          let s := show_message_in_status s
            ("Error: '" ++ current_filename ++ "' is a folder.")
          { s with filename := none }
        else
          let s := { s with filename := some current_filename }
          write_and_report s current_filename write_result

/-! ## Reachable states

The claims about "reachable editor states" quantify over the states
produced from `setup_editor_state` (whose `key_actions` dict is empty)
by `handle_key_press` steps; between steps the renderer
(`show_editor_on_screen`, line 187) refreshes `screen_height` /
`screen_width` from the terminal, modeled by the `resize` step. -/

inductive Reachable (interp : A → EditorState A → EditorState A) :
    EditorState A → Prop where
  | init (arg : Option (String × LoadOutcome)) :
      Reachable interp (setup_editor_state arg)
  | step {s : EditorState A} (key_pressed : Int) (answer : Option String) :
      Reachable interp s →
      Reachable interp (handle_key_press interp s key_pressed answer).2
  | resize {s : EditorState A} (h w : Nat) :
      Reachable interp s →
      Reachable interp { s with screen_height := h, screen_width := w }

/-- The buffer/cursor validity invariant of the spec (§8): at least one
line, cursor row within the buffer, cursor column at most the current
line's length. -/
def BufferInvariant (s : EditorState A) : Prop :=
  1 ≤ s.lines.length ∧ s.cursor_row < s.lines.length ∧
    s.cursor_col ≤ (getLine s.lines s.cursor_row).length

/-! ## Frame lemmas for scroll reconciliation -/

@[simp] theorem mcs_lines (s : EditorState A) :
    (move_cursor_and_scroll s).lines = s.lines := by
  unfold move_cursor_and_scroll; split <;> rfl

@[simp] theorem mcs_cursor_row (s : EditorState A) :
    (move_cursor_and_scroll s).cursor_row = s.cursor_row := by
  unfold move_cursor_and_scroll; split <;> rfl

@[simp] theorem mcs_cursor_col (s : EditorState A) :
    (move_cursor_and_scroll s).cursor_col = s.cursor_col := by
  unfold move_cursor_and_scroll; split <;> rfl

@[simp] theorem mcs_screen_height (s : EditorState A) :
    (move_cursor_and_scroll s).screen_height = s.screen_height := by
  unfold move_cursor_and_scroll; split <;> rfl

@[simp] theorem mcs_screen_width (s : EditorState A) :
    (move_cursor_and_scroll s).screen_width = s.screen_width := by
  unfold move_cursor_and_scroll; split <;> rfl

@[simp] theorem mcs_is_dirty (s : EditorState A) :
    (move_cursor_and_scroll s).is_dirty = s.is_dirty := by
  unfold move_cursor_and_scroll; split <;> rfl

@[simp] theorem mcs_filename (s : EditorState A) :
    (move_cursor_and_scroll s).filename = s.filename := by
  unfold move_cursor_and_scroll; split <;> rfl

@[simp] theorem mcs_key_actions (s : EditorState A) :
    (move_cursor_and_scroll s).key_actions = s.key_actions := by
  unfold move_cursor_and_scroll; split <;> rfl

@[simp] theorem mcs_status_message (s : EditorState A) :
    (move_cursor_and_scroll s).status_message = s.status_message := by
  unfold move_cursor_and_scroll; split <;> rfl

/-- Characterization of the reconciled `top_screen_line` when the screen
is big enough for the guard at lines 291-292 to pass. -/
theorem mcs_top_eq (s : EditorState A)
    (hg : ¬(s.screen_height ≤ 1 ∨ s.screen_width ≤ 0)) :
    (move_cursor_and_scroll s).top_screen_line =
      max 0 (if s.cursor_row < s.top_screen_line then s.cursor_row
             else if s.cursor_row ≥ s.top_screen_line + (s.screen_height - 1) then
               s.cursor_row - (s.screen_height - 1) + 1
             else s.top_screen_line) := by
  rw [move_cursor_and_scroll, if_neg hg]

/-- Characterization of the reconciled `left_screen_col` when the screen
is big enough for the guard at lines 291-292 to pass. -/
theorem mcs_left_eq (s : EditorState A)
    (hg : ¬(s.screen_height ≤ 1 ∨ s.screen_width ≤ 0)) :
    (move_cursor_and_scroll s).left_screen_col =
      max 0 (if s.cursor_col < s.left_screen_col then s.cursor_col
             else if s.cursor_col ≥ s.left_screen_col + s.screen_width then
               s.cursor_col - s.screen_width + 1
             else s.left_screen_col) := by
  rw [move_cursor_and_scroll, if_neg hg]

/-- On a too-small screen, reconciliation is the identity (lines 291-292). -/
theorem mcs_small (s : EditorState A)
    (hg : s.screen_height ≤ 1 ∨ s.screen_width ≤ 0) :
    move_cursor_and_scroll s = s := by
  rw [move_cursor_and_scroll, if_pos hg]

/-- C10: `move_cursor_and_scroll` modifies only `top_screen_line` and
`left_screen_col`: for every editor state, `lines`, `cursor_row`,
`cursor_col`, `is_dirty`, `filename`, and the extension registry
`key_actions` are unchanged by it. -/
theorem move_cursor_and_scroll_frame (s : EditorState A) :
    (move_cursor_and_scroll s).lines = s.lines ∧
    (move_cursor_and_scroll s).cursor_row = s.cursor_row ∧
    (move_cursor_and_scroll s).cursor_col = s.cursor_col ∧
    (move_cursor_and_scroll s).is_dirty = s.is_dirty ∧
    (move_cursor_and_scroll s).filename = s.filename ∧
    (move_cursor_and_scroll s).key_actions = s.key_actions := by
  unfold move_cursor_and_scroll; split <;> exact ⟨rfl, rfl, rfl, rfl, rfl, rfl⟩

/-- C6: scroll reconciliation is idempotent: running
`move_cursor_and_scroll` twice without an intervening cursor move yields
the same `top_screen_line` and `left_screen_col` as running it once. -/
theorem move_cursor_and_scroll_idempotent (s : EditorState A) :
    (move_cursor_and_scroll (move_cursor_and_scroll s)).top_screen_line
      = (move_cursor_and_scroll s).top_screen_line ∧
    (move_cursor_and_scroll (move_cursor_and_scroll s)).left_screen_col
      = (move_cursor_and_scroll s).left_screen_col := by
  by_cases hg : s.screen_height ≤ 1 ∨ s.screen_width ≤ 0
  · rw [mcs_small s hg, mcs_small s hg]
    exact ⟨rfl, rfl⟩
  · have hg2 : ¬((move_cursor_and_scroll s).screen_height ≤ 1 ∨
        (move_cursor_and_scroll s).screen_width ≤ 0) := by
      rw [mcs_screen_height, mcs_screen_width]; exact hg
    constructor
    · rw [mcs_top_eq _ hg2, mcs_cursor_row, mcs_screen_height, mcs_top_eq s hg]
      split_ifs <;> omega
    · rw [mcs_left_eq _ hg2, mcs_cursor_col, mcs_screen_width, mcs_left_eq s hg]
      split_ifs <;> omega

/-- C2 (amended): after `move_cursor_and_scroll`, the cursor lies inside
the visible window — `top_screen_line ≤ cursor_row <
top_screen_line + (screen_height - 1)` and `left_screen_col ≤
cursor_col < left_screen_col + screen_width` — provided the screen
passes the size guard, i.e. `screen_height ≥ 2` and `screen_width ≥ 1`. -/
theorem mcs_cursor_in_window (s : EditorState A)
    (hh : 2 ≤ s.screen_height) (hw : 1 ≤ s.screen_width) :
    (move_cursor_and_scroll s).top_screen_line ≤ s.cursor_row ∧
    s.cursor_row <
      (move_cursor_and_scroll s).top_screen_line + (s.screen_height - 1) ∧
    (move_cursor_and_scroll s).left_screen_col ≤ s.cursor_col ∧
    s.cursor_col < (move_cursor_and_scroll s).left_screen_col + s.screen_width := by
  have hg : ¬(s.screen_height ≤ 1 ∨ s.screen_width ≤ 0) := by omega
  rw [mcs_top_eq s hg, mcs_left_eq s hg]
  refine ⟨?_, ?_, ?_, ?_⟩ <;> split_ifs <;> omega

/-! ## Concrete states for witnesses and counterexamples -/

/-- A plugin action token interpretation for concrete checks: the single
token `()` posts a status message through the capability surface. -/
def demoAction : Unit → EditorState Unit → EditorState Unit :=
  fun _ s => show_message_in_status s "plugin ran"

/-- A concrete dirty state whose registry binds key code 17 (the
built-in quit key) to the demo action. -/
def demoBoundState : EditorState Unit :=
  { filename := none, lines := [['a', 'b'], ['c']], cursor_row := 0, cursor_col := 1,
    top_screen_line := 0, left_screen_col := 0, screen_height := 10, screen_width := 20,
    key_actions := fun k => if k = 17 then some () else none,
    status_message := "", is_dirty := true }

/-- A concrete state with no plugin bindings and a comfortable screen. -/
def demoState : EditorState Unit :=
  { filename := none, lines := [['a', 'b'], ['c']], cursor_row := 1, cursor_col := 0,
    top_screen_line := 0, left_screen_col := 0, screen_height := 10, screen_width := 20,
    key_actions := fun _ => none,
    status_message := "", is_dirty := false }

/-- A concrete state whose screen is one row high: the reconciliation
guard at lines 291-292 makes `move_cursor_and_scroll` a no-op there. -/
def smallScreenState : EditorState Unit :=
  { filename := none, lines := [['x']], cursor_row := 0, cursor_col := 0,
    top_screen_line := 0, left_screen_col := 0, screen_height := 1, screen_width := 5,
    key_actions := fun _ => none,
    status_message := "", is_dirty := false }

/-- C2 counterexample: with a valid cursor (buffer `["x"]`, cursor
(0,0)) but `screen_height = 1`, the cursor is not inside the visible
window after reconciliation: `displayHeight = 0` makes
`cursor_row < top_screen_line + displayHeight` impossible. -/
theorem mcs_cursor_in_window_fails_on_small_screen :
    ¬((move_cursor_and_scroll smallScreenState).top_screen_line ≤
        smallScreenState.cursor_row ∧
      smallScreenState.cursor_row <
        (move_cursor_and_scroll smallScreenState).top_screen_line +
          (smallScreenState.screen_height - 1) ∧
      (move_cursor_and_scroll smallScreenState).left_screen_col ≤
        smallScreenState.cursor_col ∧
      smallScreenState.cursor_col <
        (move_cursor_and_scroll smallScreenState).left_screen_col +
          smallScreenState.screen_width) := by
  decide

/-- Witness for C2's amended theorem at a concrete state. -/
theorem mcs_cursor_in_window_witness :
    2 ≤ demoState.screen_height ∧ 1 ≤ demoState.screen_width ∧
    ((move_cursor_and_scroll demoState).top_screen_line ≤ demoState.cursor_row ∧
     demoState.cursor_row <
       (move_cursor_and_scroll demoState).top_screen_line +
         (demoState.screen_height - 1) ∧
     (move_cursor_and_scroll demoState).left_screen_col ≤ demoState.cursor_col ∧
     demoState.cursor_col <
       (move_cursor_and_scroll demoState).left_screen_col + demoState.screen_width) :=
  ⟨by decide, by decide, mcs_cursor_in_window demoState (by decide) (by decide)⟩

/-- C3: a key bound in the extension registry is handled by the bound
action (followed by the scroll-reconciliation pass) and no built-in
handling runs, whatever the key — including built-in keys. -/
theorem plugin_binding_overrides_builtin (interp : A → EditorState A → EditorState A)
    (s : EditorState A) (key_pressed : Int) (a : A) (answer : Option String)
    (h : s.key_actions key_pressed = some a) :
    handle_key_press interp s key_pressed answer =
      (true, move_cursor_and_scroll (interp a s)) := by
  unfold handle_key_press
  rw [h]

/-- Witness for C3: key 17 is the built-in quit key and the state is
dirty, yet the plugin action runs and the editor continues. -/
theorem plugin_binding_overrides_builtin_witness :
    demoBoundState.key_actions 17 = some () ∧
    handle_key_press demoAction demoBoundState 17 none =
      (true, move_cursor_and_scroll (demoAction () demoBoundState)) :=
  ⟨by decide,
   plugin_binding_overrides_builtin demoAction demoBoundState 17 () none (by decide)⟩

/-- C7: pressing Backspace (key `KEY_BACKSPACE`, 127 or 8) with the
cursor at row 0, column 0 is a no-op: lines, cursor and dirty flag are
all unchanged (the branch at lines 467-481 takes no action, so not even
reconciliation runs). -/
theorem backspace_at_origin_noop (interp : A → EditorState A → EditorState A)
    (s : EditorState A) (key_pressed : Int) (answer : Option String)
    (hk : key_pressed = curses_KEY_BACKSPACE ∨ key_pressed = 127 ∨ key_pressed = 8)
    (ha : s.key_actions key_pressed = none)
    (hrow : s.cursor_row = 0) (hcol : s.cursor_col = 0) :
    handle_key_press interp s key_pressed answer = (true, s) := by
  unfold handle_key_press
  rw [ha]
  rcases hk with hk | hk | hk <;> subst hk <;>
    simp [curses_KEY_UP, curses_KEY_DOWN, curses_KEY_LEFT, curses_KEY_RIGHT,
      curses_KEY_HOME, curses_KEY_END, curses_KEY_PPAGE, curses_KEY_NPAGE,
      curses_KEY_BACKSPACE, curses_KEY_DC, curses_KEY_ENTER, curses_KEY_RESIZE,
      hrow, hcol]

/-- Witness for C7 at the clean buffer `["x"]`, cursor (0,0). -/
theorem backspace_at_origin_noop_witness :
    (smallScreenState.key_actions curses_KEY_BACKSPACE = none ∧
     smallScreenState.cursor_row = 0 ∧ smallScreenState.cursor_col = 0 ∧
     smallScreenState.is_dirty = false) ∧
    handle_key_press demoAction smallScreenState curses_KEY_BACKSPACE none =
      (true, smallScreenState) :=
  ⟨⟨rfl, rfl, rfl, rfl⟩,
   backspace_at_origin_noop demoAction smallScreenState curses_KEY_BACKSPACE none
     (Or.inl rfl) rfl rfl rfl⟩

/-- C9: pressing Delete-forward (`KEY_DC`) with the cursor at the end of
the last line is a no-op: lines, cursor and dirty flag are unchanged
(neither branch of lines 482-494 fires, so no action is taken). -/
theorem delete_at_end_of_last_line_noop (interp : A → EditorState A → EditorState A)
    (s : EditorState A) (answer : Option String)
    (ha : s.key_actions curses_KEY_DC = none)
    (hrow : s.cursor_row = s.lines.length - 1)
    (hcol : s.cursor_col = (getLine s.lines s.cursor_row).length) :
    handle_key_press interp s curses_KEY_DC answer = (true, s) := by
  unfold handle_key_press
  rw [ha]
  simp only [curses_KEY_UP, curses_KEY_DOWN, curses_KEY_LEFT, curses_KEY_RIGHT,
    curses_KEY_HOME, curses_KEY_END, curses_KEY_PPAGE, curses_KEY_NPAGE,
    curses_KEY_BACKSPACE, curses_KEY_DC, curses_KEY_ENTER, curses_KEY_RESIZE]
  norm_num
  rw [if_neg (by omega : ¬ s.cursor_col < (getLine s.lines s.cursor_row).length),
    if_neg (by omega : ¬ s.cursor_row < s.lines.length - 1)]

/-- A concrete state with the cursor at the end of the last line of
buffer `["ab","c"]`. -/
def endOfBufferState : EditorState Unit :=
  { filename := none, lines := [['a', 'b'], ['c']], cursor_row := 1, cursor_col := 1,
    top_screen_line := 0, left_screen_col := 0, screen_height := 10, screen_width := 20,
    key_actions := fun _ => none,
    status_message := "", is_dirty := false }

/-- Witness for C9 at buffer `["ab","c"]`, cursor (1,1). -/
theorem delete_at_end_of_last_line_noop_witness :
    (endOfBufferState.key_actions curses_KEY_DC = none ∧
     endOfBufferState.cursor_row = endOfBufferState.lines.length - 1 ∧
     endOfBufferState.cursor_col =
       (getLine endOfBufferState.lines endOfBufferState.cursor_row).length) ∧
    handle_key_press demoAction endOfBufferState curses_KEY_DC none =
      (true, endOfBufferState) :=
  ⟨⟨rfl, by decide, by decide⟩,
   delete_at_end_of_last_line_noop demoAction endOfBufferState none rfl
     (by decide) (by decide)⟩

/-- C8: behavior of the built-in quit key (code 17) when no plugin
claims it and the screen can display the confirmation prompt: a dirty
buffer prompts, an affirmative answer stops the editor with the state
untouched, any other answer keeps it running with status
"Quit cancelled." and the buffer unchanged, and a clean buffer stops
immediately for every possible answer (no prompt consulted). -/
theorem quit_key_behavior (interp : A → EditorState A → EditorState A)
    (s : EditorState A) (answer : Option String)
    (ha : s.key_actions 17 = none)
    (hh : 2 ≤ s.screen_height) (hw : 2 ≤ s.screen_width) :
    (s.is_dirty = true → isAffirmative answer = true →
      handle_key_press interp s 17 answer = (false, s)) ∧
    (s.is_dirty = true → isAffirmative answer = false →
      handle_key_press interp s 17 answer =
        (true, move_cursor_and_scroll (show_message_in_status s "Quit cancelled.")) ∧
      (handle_key_press interp s 17 answer).2.lines = s.lines ∧
      (handle_key_press interp s 17 answer).2.is_dirty = s.is_dirty ∧
      (handle_key_press interp s 17 answer).2.status_message = "Quit cancelled.") ∧
    (s.is_dirty = false → handle_key_press interp s 17 answer = (false, s)) := by
  have hask : ask_user_for_input s "Unsaved changes! Quit anyway? (y/N): " answer
      = answer := by
    unfold ask_user_for_input
    rw [if_neg (by omega)]
  unfold handle_key_press
  rw [ha]
  simp only [curses_KEY_UP, curses_KEY_DOWN, curses_KEY_LEFT, curses_KEY_RIGHT,
    curses_KEY_HOME, curses_KEY_END, curses_KEY_PPAGE, curses_KEY_NPAGE,
    curses_KEY_BACKSPACE, curses_KEY_DC, curses_KEY_ENTER, curses_KEY_RESIZE]
  norm_num [hask]
  refine ⟨?_, ?_, ?_⟩
  · intro hd haff; simp [hd, haff]
  · intro hd haff; simp [hd, haff, show_message_in_status]
  · intro hd; simp [hd]

/-- A concrete dirty state with no plugin bindings. -/
def demoDirtyState : EditorState Unit :=
  { filename := some "f.txt", lines := [['a', 'b'], ['c']], cursor_row := 0, cursor_col := 1,
    top_screen_line := 0, left_screen_col := 0, screen_height := 10, screen_width := 20,
    key_actions := fun _ => none,
    status_message := "", is_dirty := true }

/-- Witness for C8: a dirty buffer whose quit prompt is answered "y"
stops the editor. -/
theorem quit_key_behavior_witness :
    (demoDirtyState.key_actions 17 = none ∧ 2 ≤ demoDirtyState.screen_height ∧
     2 ≤ demoDirtyState.screen_width ∧ demoDirtyState.is_dirty = true ∧
     isAffirmative (some "y") = true) ∧
    handle_key_press demoAction demoDirtyState 17 (some "y") = (false, demoDirtyState) :=
  ⟨⟨rfl, by decide, by decide, rfl, by decide⟩,
   (quit_key_behavior demoAction demoDirtyState (some "y") rfl (by decide)
     (by decide)).1 rfl (by decide)⟩

/-- C4 (amended): when the write raises, `do_save_file` leaves `lines`
and the dirty flag unchanged for every buffer and failing destination;
the file path and the error status message are additionally untouched
whenever the buffer already had a truthy (non-`None`, non-empty) file
name.  (In the Save-As path the entered name is recorded via
`set_filename` before the write, so it is retained on failure.) -/
theorem save_failure_preserves_buffer (s : EditorState A) (typed : Option String)
    (is_dir : String → Bool) (msg : String) (wr : SaveOutcome)
    (hw : wr = SaveOutcome.ioError msg ∨ wr = SaveOutcome.unexpectedError msg) :
    ((do_save_file s typed is_dir wr).lines = s.lines ∧
     (do_save_file s typed is_dir wr).is_dirty = s.is_dirty) ∧
    (truthyString s.filename = true →
      (do_save_file s typed is_dir wr).filename = s.filename ∧
      (do_save_file s typed is_dir wr).status_message =
        (match wr with
         | SaveOutcome.ioError e => "Error saving! Could not write to file: " ++ e
         | SaveOutcome.unexpectedError e =>
             "Error saving! An unexpected error occurred: " ++ e
         | SaveOutcome.success => s.status_message)) := by
  rcases hw with rfl | rfl <;>
    by_cases ht : truthyString s.filename = true <;>
      (simp only [do_save_file, ht, if_true, if_false, Bool.false_eq_true,
        write_and_report, show_message_in_status, ask_user_for_input];
       try simp_all)
  all_goals
    split_ifs <;> try simp_all
  all_goals
    rcases typed with _ | t <;> (simp_all; try (split_ifs <;> simp_all))

/-- A concrete dirty buffer with no file name yet (`filename = None`). -/
def noNameState : EditorState Unit :=
  { filename := none, lines := [['a']], cursor_row := 0, cursor_col := 0,
    top_screen_line := 0, left_screen_col := 0, screen_height := 10, screen_width := 20,
    key_actions := fun _ => none,
    status_message := "", is_dirty := true }

/-- C4 counterexample: saving a buffer that had no file name, with the
user answering "x" to the Save-As prompt and the write then failing,
changes the buffer's file path from `None` to `"x"` — the claim's
"file path unchanged on failure" is false on this input. -/
theorem save_failure_changes_filename :
    (do_save_file noNameState (some "x") (fun _ => false)
        (SaveOutcome.ioError "disk full")).filename = some "x" ∧
    noNameState.filename = none := by
  decide

/-- Witness for C4's amended theorem at a concrete named dirty buffer
and a concrete failing write. -/
theorem save_failure_preserves_buffer_witness :
    truthyString demoDirtyState.filename = true ∧
    (do_save_file demoDirtyState none (fun _ => false)
        (SaveOutcome.ioError "denied")).lines = demoDirtyState.lines ∧
    (do_save_file demoDirtyState none (fun _ => false)
        (SaveOutcome.ioError "denied")).is_dirty = demoDirtyState.is_dirty ∧
    (do_save_file demoDirtyState none (fun _ => false)
        (SaveOutcome.ioError "denied")).filename = demoDirtyState.filename :=
  have h := save_failure_preserves_buffer demoDirtyState none (fun _ => false)
    "denied" (SaveOutcome.ioError "denied") (Or.inl rfl)
  ⟨by decide, h.1.1, h.1.2, (h.2 (by decide)).1⟩

/-! ## Round-trip lemmas for save followed by load -/

/-- `translateNewlines` passes a non-carriage-return head through. -/
theorem translateNewlines_cons_ne (c : Char) (t : List Char) (hc : c ≠ '\r')
    (ht : t ≠ []) : translateNewlines (c :: t) = c :: translateNewlines t := by
  cases t with
  | nil => simp at ht
  | cons d t' => simp only [translateNewlines, if_neg hc]

/-- `translateNewlines` passes a CR-free line and its terminator through. -/
theorem translateNewlines_line (l rest : List Char) (h : '\r' ∉ l) :
    translateNewlines (l ++ '\n' :: rest) = l ++ '\n' :: translateNewlines rest := by
  induction l with
  | nil =>
    simp only [List.nil_append]
    cases rest with
    | nil => simp [translateNewlines]
    | cons d t => rw [translateNewlines_cons_ne '\n' (d :: t) (by decide) (by simp)]
  | cons c l' ih =>
    have h1 : c ≠ '\r' := by rintro rfl; exact h (List.mem_cons_self _ _)
    have h2 : '\r' ∉ l' := fun m => h (List.mem_cons_of_mem _ m)
    rw [List.cons_append,
      translateNewlines_cons_ne c (l' ++ '\n' :: rest) h1 (by simp),
      ih h2, List.cons_append]

/-- Splitting text that starts with a newline-free line peels that line
off together with its terminator. -/
theorem splitLinesAux_line (l rest acc : List Char) (h : '\n' ∉ l) :
    splitLinesAux acc (l ++ '\n' :: rest) =
      (acc.reverse ++ l ++ ['\n']) :: splitLinesAux [] rest := by
  induction l generalizing acc with
  | nil => simp [splitLinesAux]
  | cons c l' ih =>
    have h1 : c ≠ '\n' := by rintro rfl; exact h (List.mem_cons_self _ _)
    have h2 : '\n' ∉ l' := fun m => h (List.mem_cons_of_mem _ m)
    rw [List.cons_append, splitLinesAux, if_neg h1, ih (c :: acc) h2]
    simp

/-- `dropWhile` is the identity when no element satisfies the predicate. -/
theorem dropWhile_eq_self_of (p : Char → Bool) (l : List Char)
    (h : ∀ c ∈ l, p c = false) : l.dropWhile p = l := by
  cases l with
  | nil => rfl
  | cons c t => rw [List.dropWhile_cons, h c (List.mem_cons_self c t)]; simp

/-- `rstrip('\n\r')` removes exactly the terminator from a line that
contains no CR or LF of its own. -/
theorem rstripNewline_line (l : List Char) (hn : '\n' ∉ l) (hr : '\r' ∉ l) :
    rstripNewline (l ++ ['\n']) = l := by
  unfold rstripNewline
  rw [List.reverse_append]
  simp only [List.reverse_cons, List.reverse_nil, List.nil_append, List.singleton_append]
  rw [List.dropWhile_cons, if_pos (by decide : isNewlineChar '\n' = true)]
  rw [dropWhile_eq_self_of _ l.reverse ?side, List.reverse_reverse]
  case side =>
    intro c hc
    have hc' : c ∈ l := List.mem_reverse.mp hc
    have h1 : c ≠ '\n' := by rintro rfl; exact hn hc'
    have h2 : c ≠ '\r' := by rintro rfl; exact hr hc'
    simp [isNewlineChar, h1, h2]

/-- C5: saving a buffer whose lines contain no CR or LF and then loading
the written text reproduces exactly the same lines (save writes each
line plus one `'\n'`; load splits at `'\n'` and strips trailing
`'\n'`/`'\r'`). -/
theorem save_load_round_trip (lines : List (List Char)) (hne : lines ≠ [])
    (h : ∀ l ∈ lines, '\n' ∉ l ∧ '\r' ∉ l) :
    load_lines (save_content lines) = lines := by
  induction lines with
  | nil => exact absurd rfl hne
  | cons l rest ih =>
    have hl := h l (List.mem_cons_self l rest)
    have hrest : ∀ l' ∈ rest, '\n' ∉ l' ∧ '\r' ∉ l' :=
      fun l' hl' => h l' (List.mem_cons_of_mem l hl')
    have hsave : save_content (l :: rest) = l ++ '\n' :: save_content rest := by
      simp [save_content]
    unfold load_lines
    rw [hsave, translateNewlines_line l _ hl.2, splitLinesKeepEnds,
      splitLinesAux_line l _ [] hl.1]
    simp only [List.reverse_nil, List.nil_append, List.map_cons]
    rw [rstripNewline_line l hl.1 hl.2]
    cases rest with
    | nil => simp [save_content, translateNewlines, splitLinesAux]
    | cons l2 rest2 =>
      have ih2 := ih (by simp) hrest
      unfold load_lines splitLinesKeepEnds at ih2
      rw [ih2]

/-- Witness for C5 at the spec's example buffer `["abc","de"]`. -/
theorem save_load_round_trip_witness :
    (([['a', 'b', 'c'], ['d', 'e']] : List (List Char)) ≠ [] ∧
     (∀ l ∈ ([['a', 'b', 'c'], ['d', 'e']] : List (List Char)),
        '\n' ∉ l ∧ '\r' ∉ l)) ∧
    load_lines (save_content [['a', 'b', 'c'], ['d', 'e']]) =
      [['a', 'b', 'c'], ['d', 'e']] :=
  ⟨⟨by decide, by decide⟩, save_load_round_trip _ (by decide) (by decide)⟩

/-- Indexing after in-range assignment reads the new line. -/
theorem getLine_set_self (l : List (List Char)) (n : Nat) (a : List Char)
    (h : n < l.length) : getLine (l.set n a) n = a := by
  unfold getLine
  rw [List.getD_eq_getElem?_getD, List.getElem?_set_self h, Option.getD_some]

/-- Indexing below a removed index is unaffected by the removal. -/
theorem getLine_eraseIdx_of_lt (l : List (List Char)) (n m : Nat) (h : m < n) :
    getLine (l.eraseIdx n) m = getLine l m := by
  unfold getLine
  rw [List.getD_eq_getElem?_getD, List.getElem?_eraseIdx, if_pos h,
    ← List.getD_eq_getElem?_getD]

/-- `list.insert` always grows the list by one. -/
theorem length_pyInsert (l : List (List Char)) (n : Nat) (x : List Char) :
    (pyInsert l n x).length = l.length + 1 := by
  simp [pyInsert]
  omega

/-- `mark_file_as_changed` just sets the dirty flag. -/
theorem mark_file_as_changed_eq (s : EditorState A) :
    mark_file_as_changed s = { s with is_dirty := true } := by
  unfold mark_file_as_changed
  split
  · next hd => cases s; simp_all
  · rfl

/-- Reconciliation neither helps nor harms buffer/cursor validity. -/
theorem BufferInvariant_mcs {s : EditorState A} :
    BufferInvariant (move_cursor_and_scroll s) ↔ BufferInvariant s := by
  unfold BufferInvariant
  rw [mcs_lines, mcs_cursor_row, mcs_cursor_col]

/-- One dispatcher step from a state with an empty extension registry
preserves buffer/cursor validity and leaves the registry empty. -/
theorem handle_key_press_preserves (interp : A → EditorState A → EditorState A)
    {s : EditorState A} (key_pressed : Int) (answer : Option String)
    (hka : s.key_actions = fun _ => none) (hinv : BufferInvariant s) :
    BufferInvariant (handle_key_press interp s key_pressed answer).2 ∧
      (handle_key_press interp s key_pressed answer).2.key_actions = fun _ => none := by
  obtain ⟨h1, h2, h3⟩ := hinv
  have hk : s.key_actions key_pressed = none := by rw [hka]
  unfold handle_key_press
  rw [hk]
  dsimp only
  by_cases hup : key_pressed = curses_KEY_UP
  · rw [if_pos hup]
    split_ifs with hr
    · exact ⟨BufferInvariant_mcs.mpr ⟨h1, by dsimp only; omega, by dsimp only; omega⟩,
        by simp only [mcs_key_actions]; exact hka⟩
    · exact ⟨⟨h1, h2, h3⟩, hka⟩
  rw [if_neg hup]
  by_cases hdn : key_pressed = curses_KEY_DOWN
  · rw [if_pos hdn]
    split_ifs with hr
    · exact ⟨BufferInvariant_mcs.mpr ⟨h1, by dsimp only; omega, by dsimp only; omega⟩,
        by simp only [mcs_key_actions]; exact hka⟩
    · exact ⟨⟨h1, h2, h3⟩, hka⟩
  rw [if_neg hdn]
  by_cases hlf : key_pressed = curses_KEY_LEFT
  · rw [if_pos hlf]
    split_ifs with hc hr
    · exact ⟨BufferInvariant_mcs.mpr ⟨h1, h2, by dsimp only; omega⟩,
        by simp only [mcs_key_actions]; exact hka⟩
    · exact ⟨BufferInvariant_mcs.mpr ⟨h1, by dsimp only; omega, by dsimp only; omega⟩,
        by simp only [mcs_key_actions]; exact hka⟩
    · exact ⟨⟨h1, h2, h3⟩, hka⟩
  rw [if_neg hlf]
  by_cases hrt : key_pressed = curses_KEY_RIGHT
  · rw [if_pos hrt]
    split_ifs with hc hr
    · exact ⟨BufferInvariant_mcs.mpr ⟨h1, h2, by dsimp only; omega⟩,
        by simp only [mcs_key_actions]; exact hka⟩
    · exact ⟨BufferInvariant_mcs.mpr ⟨h1, by dsimp only; omega, by dsimp only; omega⟩,
        by simp only [mcs_key_actions]; exact hka⟩
    · exact ⟨⟨h1, h2, h3⟩, hka⟩
  rw [if_neg hrt]
  by_cases hhm : key_pressed = curses_KEY_HOME
  · rw [if_pos hhm]
    exact ⟨BufferInvariant_mcs.mpr ⟨h1, h2, by dsimp only; omega⟩,
      by simp only [mcs_key_actions]; exact hka⟩
  rw [if_neg hhm]
  by_cases hed : key_pressed = curses_KEY_END
  · rw [if_pos hed]
    exact ⟨BufferInvariant_mcs.mpr ⟨h1, h2, by dsimp only; omega⟩,
      by simp only [mcs_key_actions]; exact hka⟩
  rw [if_neg hed]
  by_cases hpp : key_pressed = curses_KEY_PPAGE
  · rw [if_pos hpp]
    split_ifs with hs
    · exact ⟨BufferInvariant_mcs.mpr ⟨h1, by dsimp only; omega, by dsimp only; omega⟩,
        by simp only [mcs_key_actions]; exact hka⟩
    · exact ⟨⟨h1, h2, h3⟩, hka⟩
  rw [if_neg hpp]
  by_cases hnp : key_pressed = curses_KEY_NPAGE
  · rw [if_pos hnp]
    split_ifs with hs
    · exact ⟨BufferInvariant_mcs.mpr ⟨h1, by dsimp only; omega, by dsimp only; omega⟩,
        by simp only [mcs_key_actions]; exact hka⟩
    · exact ⟨⟨h1, h2, h3⟩, hka⟩
  rw [if_neg hnp]
  by_cases hbs : key_pressed = curses_KEY_BACKSPACE ∨ key_pressed = 127 ∨ key_pressed = 8
  · rw [if_pos hbs]
    split_ifs with hc hr
    · refine ⟨BufferInvariant_mcs.mpr ?_,
        by simp only [mcs_key_actions, mark_file_as_changed_eq]; exact hka⟩
      rw [mark_file_as_changed_eq]
      refine ⟨?_, ?_, ?_⟩ <;> dsimp only
      · rw [List.length_set]; omega
      · rw [List.length_set]; omega
      · rw [getLine_set_self _ _ _ h2]
        simp only [List.length_append, List.length_take, List.length_drop]
        omega
    · refine ⟨BufferInvariant_mcs.mpr ?_,
        by simp only [mcs_key_actions, mark_file_as_changed_eq]; exact hka⟩
      rw [mark_file_as_changed_eq]
      have hlen1 : (s.lines.eraseIdx s.cursor_row).length = s.lines.length - 1 := by
        rw [List.length_eraseIdx, if_pos h2]
      refine ⟨?_, ?_, ?_⟩ <;> dsimp only
      · rw [List.length_set, hlen1]; omega
      · rw [List.length_set, hlen1]; omega
      · rw [getLine_set_self _ _ _ (by rw [hlen1]; omega)]
        simp only [List.length_append]
        omega
    · exact ⟨⟨h1, h2, h3⟩, hka⟩
  rw [if_neg hbs]
  by_cases hdc : key_pressed = curses_KEY_DC
  · rw [if_pos hdc]
    split_ifs with hc hr
    · refine ⟨BufferInvariant_mcs.mpr ?_,
        by simp only [mcs_key_actions, mark_file_as_changed_eq]; exact hka⟩
      rw [mark_file_as_changed_eq]
      refine ⟨?_, ?_, ?_⟩ <;> dsimp only
      · rw [List.length_set]; omega
      · rw [List.length_set]; omega
      · rw [getLine_set_self _ _ _ h2]
        simp only [List.length_append, List.length_take, List.length_drop]
        omega
    · refine ⟨BufferInvariant_mcs.mpr ?_,
        by simp only [mcs_key_actions, mark_file_as_changed_eq]; exact hka⟩
      rw [mark_file_as_changed_eq]
      have hlen1 : (s.lines.eraseIdx (s.cursor_row + 1)).length = s.lines.length - 1 := by
        rw [List.length_eraseIdx, if_pos (by omega)]
      refine ⟨?_, ?_, ?_⟩ <;> dsimp only
      · rw [List.length_set, hlen1]; omega
      · rw [List.length_set, hlen1]; omega
      · rw [getLine_set_self _ _ _ (by rw [hlen1]; omega),
          getLine_eraseIdx_of_lt _ _ _ (Nat.lt_succ_self s.cursor_row)]
        simp only [List.length_append]
        omega
    · exact ⟨⟨h1, h2, h3⟩, hka⟩
  rw [if_neg hdc]
  by_cases hen : key_pressed = curses_KEY_ENTER ∨ key_pressed = 10 ∨ key_pressed = 13
  · rw [if_pos hen]
    refine ⟨BufferInvariant_mcs.mpr ?_,
      by simp only [mcs_key_actions, mark_file_as_changed_eq]; exact hka⟩
    rw [mark_file_as_changed_eq]
    refine ⟨?_, ?_, ?_⟩ <;> dsimp only
    · rw [length_pyInsert, List.length_set]; omega
    · rw [length_pyInsert, List.length_set]; omega
    · omega
  rw [if_neg hen]
  by_cases hqt : key_pressed = 17
  · rw [if_pos hqt]
    split_ifs
    · exact ⟨⟨h1, h2, h3⟩, hka⟩
    · exact ⟨BufferInvariant_mcs.mpr ⟨h1, h2, h3⟩,
        by simp only [mcs_key_actions]; exact hka⟩
    · exact ⟨⟨h1, h2, h3⟩, hka⟩
  rw [if_neg hqt]
  by_cases hpr : 32 ≤ key_pressed ∧ key_pressed ≤ 126
  · rw [if_pos hpr]
    refine ⟨BufferInvariant_mcs.mpr ?_,
      by simp only [mcs_key_actions, mark_file_as_changed_eq]; exact hka⟩
    rw [mark_file_as_changed_eq]
    refine ⟨?_, ?_, ?_⟩ <;> dsimp only
    · rw [List.length_set]; omega
    · rw [List.length_set]; omega
    · rw [getLine_set_self _ _ _ h2]
      simp only [List.length_append, List.length_take, List.length_drop,
        List.length_cons, List.length_nil]
      omega
  rw [if_neg hpr]
  by_cases hrs : key_pressed = curses_KEY_RESIZE
  · rw [if_pos hrs]
    exact ⟨BufferInvariant_mcs.mpr ⟨h1, h2, h3⟩,
      by simp only [mcs_key_actions]; exact hka⟩
  rw [if_neg hrs]
  exact ⟨⟨h1, h2, h3⟩, hka⟩

/-- `load_file_into_editor` never touches the extension registry. -/
theorem load_key_actions (s : EditorState A) (fn : String) (outcome : LoadOutcome) :
    (load_file_into_editor s fn outcome).key_actions = s.key_actions := by
  rcases outcome with _ | _ | _ | _ <;> rfl

/-- Every outcome of `load_file_into_editor` yields a valid buffer and
cursor. -/
theorem load_inv (s : EditorState A) (fn : String) (outcome : LoadOutcome) :
    BufferInvariant (load_file_into_editor s fn outcome) := by
  rcases outcome with text | _ | _ | msg
  · refine ⟨?_, ?_, ?_⟩ <;> dsimp only [load_file_into_editor] <;>
      rcases hl : load_lines text with _ | ⟨a, rest⟩ <;> simp [hl, getLine]
  · exact ⟨Nat.le_refl 1, Nat.one_pos, Nat.zero_le _⟩
  · exact ⟨Nat.le_refl 1, Nat.one_pos, Nat.zero_le _⟩
  · exact ⟨Nat.le_refl 1, Nat.one_pos, Nat.zero_le _⟩

/-- Induction along `Reachable`: validity plus an empty registry. -/
theorem reachable_inv (interp : A → EditorState A → EditorState A)
    {s : EditorState A} (h : Reachable interp s) :
    BufferInvariant s ∧ s.key_actions = fun _ => none := by
  induction h with
  | init arg =>
    rcases arg with _ | ⟨fn, outcome⟩
    · exact ⟨⟨Nat.le_refl 1, Nat.one_pos, Nat.zero_le _⟩, rfl⟩
    · unfold setup_editor_state
      dsimp only
      split
      · exact ⟨load_inv _ fn outcome, (load_key_actions _ fn outcome).trans rfl⟩
      · exact ⟨load_inv _ fn outcome, (load_key_actions _ fn outcome).trans rfl⟩
  | step k ans hr ih => exact handle_key_press_preserves interp k ans ih.2 ih.1
  | resize hh ww hr ih => exact ⟨⟨ih.1.1, ih.1.2.1, ih.1.2.2⟩, ih.2⟩

/-- C1: every reachable editor state (produced from the initial setup
state by `handle_key_press` steps and renderer screen-size refreshes)
satisfies the buffer/cursor invariant: at least one line,
`cursor_row < len(lines)`, and `cursor_col ≤ len(lines[cursor_row])`
(lower bounds are inherent to `Nat`). -/
theorem reachable_states_satisfy_buffer_invariant
    (interp : A → EditorState A → EditorState A) {s : EditorState A}
    (h : Reachable interp s) : BufferInvariant s :=
  (reachable_inv interp h).1

/-- Witness for C1: the state reached from a fresh no-file setup by
pressing 'a' (key 97) satisfies the invariant. -/
theorem reachable_states_satisfy_buffer_invariant_witness :
    BufferInvariant ((handle_key_press demoAction
      (setup_editor_state (A := Unit) none) 97 none).2) :=
  reachable_states_satisfy_buffer_invariant demoAction
    (Reachable.step 97 none (Reachable.init none))
